import Mathlib

/-!
Shallow embedding of `testcontainer-go` (`docker.go`) in Lean 4.

The repository is a thin wrapper over the Docker engine API: port-spec
parsing, a container handle with a lazily cached inspection snapshot,
accessors (`GetIPAddress`, `GetMappedPort`, `LivenessCheckPorts`),
`Terminate`, and `RunContainer`.

Modelling choices, uniform across the file:
* The external Docker engine / client is an oracle (`DockerEnv`) whose fields
  give the result of each engine operation; the error strings it returns are
  wrapped in the constructor `GoError.external`, while errors built with
  `fmt.Errorf` inside this package (or inside the modelled libraries) are
  `GoError.errorf`. This mirrors the fact that in Go they are values of
  distinct dynamic types.
* Go maps (`nat.PortMap`, `nat.PortSet`, the request environment) are
  association lists in a fixed iteration order.
* Mutation of the handle's cache slot (`c.raw = &inspect`) is explicit state
  passing: every accessor returns the updated `Container`.
* Engine calls that create or mutate or read external state are recorded in a
  call log (`List EngineCall`) returned alongside the result.
* A Go runtime panic (out-of-range index) is the `GoResult.panic` constructor.
-/

/-- Errors. `external m` is an error value produced by the Docker client or
engine (an external collaborator); `errorf m` is an error value constructed
in-process with `fmt.Errorf` / `strconv` (a plain message error). -/
inductive GoError where
  | external (msg : String)
  | errorf (msg : String)
deriving Repr, DecidableEq

/-- Result of a Go function returning `(value, error)`, with the extra
possibility of a runtime panic (e.g. an out-of-range slice index). -/
inductive GoResult (α : Type) where
  | ok (a : α)
  | err (e : GoError)
  | panic (msg : String)
deriving Repr, DecidableEq

/-- Model of `nat.PortBinding` (go-connections): one host-side binding. -/
structure PortBinding where
  HostIP : String
  HostPort : String
deriving Repr, DecidableEq

/-- Model of `nat.PortMap`: Go map from `nat.Port` (a string such as
"80/tcp") to a list of host bindings, as an association list in iteration
order. -/
abbrev PortMap := List (String × List PortBinding)

/-- Model of `types.NetworkSettings`, only the fields `docker.go` reads. -/
structure NetworkSettings where
  IPAddress : String
  Ports : PortMap
deriving Repr, DecidableEq

/-- Model of `container.Config`: the creation configuration, also the
`Config` section of an inspection snapshot. `Cmd = none` models a `nil`
slice, i.e. no explicit command override. -/
structure ContainerConfig where
  Image : String := ""
  Env : List String := []
  ExposedPorts : List String := []
  Cmd : Option (List String) := none
deriving Repr, DecidableEq

/-- Model of `types.ContainerJSON`, only the fields `docker.go` reads. -/
structure ContainerJSON where
  Config : ContainerConfig
  NetworkSettings : NetworkSettings
deriving Repr, DecidableEq

/-- Model of `container.HostConfig`, only the field `docker.go` sets. -/
structure HostConfig where
  PortBindings : PortMap
deriving Repr, DecidableEq

/-- Model of `types.ImagePullOptions`, only the field `docker.go` sets. -/
structure ImagePullOptions where
  RegistryAuth : String := ""
deriving Repr, DecidableEq

/-! ### Go string primitives

Lean's own `String.splitOn`, `String.toLower`, … are defined by well-founded
recursion on positions and do not reduce inside the kernel, so the handful of
Go string operations the program uses are given structurally recursive
models over the character list of the string. Every separator the program
splits on is a single character. -/

/-- Split a character list at every occurrence of `sep`, keeping empty
pieces: the semantics of Go `strings.Split` with a one-character separator
(and of Lean's `String.splitOn`). -/
def splitCharAux (sep : Char) : List Char → List Char → List (List Char)
  | [], acc => [acc.reverse]
  | c :: rest, acc =>
    if c = sep then acc.reverse :: splitCharAux sep rest []
    else splitCharAux sep rest (c :: acc)

/-- Go `strings.Split s (String.singleton sep)`. -/
def goSplit (s : String) (sep : Char) : List String :=
  (splitCharAux sep s.data []).map String.mk

/-- Go `strings.Join` with a one-character separator. -/
def goJoin (sep : Char) : List String → String
  | [] => ""
  | [s] => s
  | s :: rest => s ++ String.mk [sep] ++ goJoin sep rest

/-- Character count of a string (Go `len` is byte count, but every string
the program measures is ASCII). -/
def strLen (s : String) : Nat := s.data.length

/-- Whether every character satisfies `p`. -/
def strAll (s : String) (p : Char → Bool) : Bool := s.data.all p

/-- Whether the character `c` occurs in `s` (Go `strings.Contains` with a
one-character needle). -/
def strContainsChar (s : String) (c : Char) : Bool := s.data.contains c

/-- Decimal value of a digit string (the accumulating loop of
`strconv.ParseUint`). -/
def digitsVal (s : String) : Nat :=
  s.data.foldl (fun acc c => acc * 10 + (c.toNat - 48)) 0

/-- Go `strings.ToLower` (ASCII). -/
def strToLower (s : String) : String := String.mk (s.data.map Char.toLower)

/-! ### Model of the `github.com/docker/go-connections/nat` library

`docker.go` calls `nat.ParsePortSpecs` and `nat.Port.Int`. These are
translated from the library's source (`nat.go`, `parse.go`). -/

/-- Model of `strconv.ParseUint(s, 10, 16)`: base-10 digits only, value must
fit in 16 bits. -/
def parseUint16 (s : String) : Except GoError Nat :=
  if s = "" then
    .error (.errorf ("strconv.ParseUint: parsing \"" ++ s ++ "\": invalid syntax"))
  else if strAll s Char.isDigit then
    let n := digitsVal s
    if n ≤ 65535 then .ok n
    else .error (.errorf ("strconv.ParseUint: parsing \"" ++ s ++ "\": value out of range"))
  else
    .error (.errorf ("strconv.ParseUint: parsing \"" ++ s ++ "\": invalid syntax"))

/-- Model of `nat.splitParts`: split a raw port spec on ":" into
(rawIP, hostPort, containerPort). -/
def splitParts (rawport : String) : String × String × String :=
  let parts := goSplit rawport ':'
  let n := parts.length
  match parts with
  | [] => ("", "", "")
  | [cp] => ("", "", cp)
  | [hp, cp] => ("", hp, cp)
  | [ip, hp, cp] => (ip, hp, cp)
  | _ =>
    (goJoin ':' (parts.take (n - 2)), parts.getD (n - 2) "",
      parts.getLastD "")

/-- Model of `nat.SplitProtoPort`: split "port/proto" into (proto, port),
defaulting the protocol to "tcp". -/
def splitProtoPort (rawPort : String) : String × String :=
  let parts := goSplit rawPort '/'
  if rawPort = "" ∨ parts.length = 0 ∨ (parts.getD 0 "") = "" then
    ("", "")
  else if parts.length = 1 then
    ("tcp", rawPort)
  else if (parts.getD 1 "") = "" then
    ("tcp", parts.getD 0 "")
  else
    (parts.getD 1 "", parts.getD 0 "")

/-- Model of `nat.ParsePortRange`: either a single port or "start-end". -/
def parsePortRange (ports : String) : Except GoError (Nat × Nat) :=
  if ports = "" then
    .error (.errorf "Empty string specified for ports.")
  else if ¬ strContainsChar ports '-' then
    match parseUint16 ports with
    | .error e => .error e
    | .ok n => .ok (n, n)
  else
    let parts := goSplit ports '-'
    match parseUint16 (parts.getD 0 "") with
    | .error e => .error e
    | .ok s =>
      match parseUint16 (parts.getD 1 "") with
      | .error e => .error e
      | .ok e' =>
        if e' < s then
          .error (.errorf ("Invalid range specified for the Port: " ++ ports))
        else .ok (s, e')

/-- Model of `net.ParseIP` restricted to IPv4 dotted-quad form (the only
form a colon-separated port spec can carry through `splitParts` intact). -/
def ipOk (s : String) : Bool :=
  let parts := goSplit s '.'
  parts.length = 4 &&
    parts.all (fun p => p ≠ "" && strLen p ≤ 3 && strAll p Char.isDigit &&
      digitsVal p ≤ 255)

/-- Model of `nat.validateProto`. -/
def validateProto (proto : String) : Bool :=
  proto = "tcp" ∨ proto = "udp" ∨ proto = "sctp"

/-- Model of `nat.PortMapping`: one parsed (container port, host binding)
pair. The `Port` field is the engine-form string "port/proto". -/
structure PortMapping where
  Binding : PortBinding
  Port : String
deriving Repr, DecidableEq

/-- Model of `nat.ParsePortSpec`: parse one raw spec
"[ip:]\x5bhostPort:]containerPort[/proto]" into port mappings, expanding
ranges. -/
def parsePortSpec (rawPort : String) : Except GoError (List PortMapping) :=
  let (rawIP, hostPortSpec, containerPortSpec) := splitParts rawPort
  let (proto, containerPort) := splitProtoPort containerPortSpec
  if rawIP ≠ "" ∧ ¬ ipOk rawIP then
    .error (.errorf ("Invalid ip address: " ++ rawIP))
  else
    match parsePortRange containerPort with
    | .error _ => .error (.errorf ("Invalid containerPort: " ++ containerPort))
    | .ok (startPort, endPort) =>
      match (if hostPortSpec ≠ "" then parsePortRange hostPortSpec
             else .ok (0, 0)) with
      | .error _ => .error (.errorf ("Invalid hostPort: " ++ hostPortSpec))
      | .ok (startHostPort, endHostPort) =>
        if hostPortSpec ≠ "" ∧ (endPort - startPort) ≠ (endHostPort - startHostPort) ∧
            endPort ≠ startPort then
          .error (.errorf ("Invalid ranges specified for container and host Ports: " ++
            containerPort ++ " and " ++ hostPortSpec))
        else
          let protocol := strToLower proto
          if ¬ validateProto protocol then
            .error (.errorf ("Invalid proto: " ++ proto))
          else
            .ok ((List.range (endPort - startPort + 1)).map (fun i =>
              let hp :=
                if hostPortSpec ≠ "" then toString (startHostPort + i)
                else hostPortSpec
              let hp :=
                if startPort = endPort ∧ startHostPort ≠ endHostPort then
                  hp ++ "-" ++ toString endHostPort
                else hp
              { Binding := { HostIP := rawIP, HostPort := hp },
                Port := toString (startPort + i) ++ "/" ++ protocol }))

/-- Append a binding to the map entry for `port`, creating the entry if
absent (the `bindings[port] = append(bslice, ...)` step of
`nat.ParsePortSpecs`). -/
def insertBinding (m : PortMap) (port : String) (b : PortBinding) : PortMap :=
  if m.any (fun kv => kv.1 = port) then
    m.map (fun kv => if kv.1 = port then (kv.1, kv.2 ++ [b]) else kv)
  else
    m ++ [(port, [b])]

/-- Accumulating loop of `nat.ParsePortSpecs` over the raw specs. -/
def parsePortSpecsAux : List String → List String → PortMap →
    Except GoError (List String × PortMap)
  | [], exposed, bindings => .ok (exposed, bindings)
  | rawPort :: rest, exposed, bindings =>
    match parsePortSpec rawPort with
    | .error e => .error e
    | .ok mappings =>
      let step := fun (acc : List String × PortMap) (pm : PortMapping) =>
        let exposed' := if pm.Port ∈ acc.1 then acc.1 else acc.1 ++ [pm.Port]
        (exposed', insertBinding acc.2 pm.Port pm.Binding)
      let acc' := mappings.foldl step (exposed, bindings)
      parsePortSpecsAux rest acc'.1 acc'.2

/-- Model of `nat.ParsePortSpecs`: exposed-port set (as a list) and port
binding map from the request's raw specs. -/
def parsePortSpecs (ports : List String) : Except GoError (List String × PortMap) :=
  parsePortSpecsAux ports [] []

/-- Model of `nat.Port.Int`: numeric value of the port part of "port/proto",
ignoring the protocol suffix; 0 when the port part does not parse. -/
def portInt (p : String) : Nat :=
  match parseUint16 ((goSplit p '/').getD 0 "") with
  | .ok n => n
  | .error _ => 0

/-- Model of `strconv.Atoi`. -/
def atoi (s : String) : Except GoError Int :=
  let neg := s.data.head? = some '-'
  let body : List Char :=
    if s.data.head? = some '-' ∨ s.data.head? = some '+' then s.data.tail
    else s.data
  if body = [] ∨ ¬ body.all Char.isDigit then
    .error (.errorf ("strconv.Atoi: parsing \"" ++ s ++ "\": invalid syntax"))
  else
    let n : Int := body.foldl (fun acc c => acc * 10 + ((c.toNat : Int) - 48)) 0
    if n ≤ 9223372036854775807 then
      .ok (if neg then -n else n)
    else
      .error (.errorf ("strconv.Atoi: parsing \"" ++ s ++ "\": value out of range"))

/-- Equality on `Except` is decidable when it is on both components. -/
instance {ε α : Type} [DecidableEq ε] [DecidableEq α] : DecidableEq (Except ε α)
  | .ok a, .ok b =>
    if h : a = b then isTrue (by rw [h])
    else isFalse (fun hh => h (Except.ok.inj hh))
  | .ok _, .error _ => isFalse (fun h => Except.noConfusion h)
  | .error _, .ok _ => isFalse (fun h => Except.noConfusion h)
  | .error e, .error f =>
    if h : e = f then isTrue (by rw [h])
    else isFalse (fun hh => h (Except.error.inj hh))

/-! ### The container handle and the engine oracle -/

/-- Model of the `Container` struct: the Docker-assigned identifier and the
lazily populated inspection cache (`raw *types.ContainerJSON`, `none` for a
nil pointer). -/
structure Container where
  ID : String
  raw : Option ContainerJSON := none
deriving Repr, DecidableEq

/-- Model of the `RequestContainer` struct. The environment map is an
association list (keys unique) in iteration order; `WaitingFor` is the
optional readiness strategy, a function from the handle to `nil` (ready) or
an error. -/
structure RequestContainer where
  Env : List (String × String) := []
  ExportedPort : List String := []
  Cmd : String := ""
  RegistryCred : String := ""
  WaitingFor : Option (Container → Option GoError) := none

/-- Oracle for the external Docker client and engine: the outcome of each
collaborator operation the program may issue. Error strings it produces are
wrapped as `GoError.external` at the call sites. -/
structure DockerEnv where
  newEnvClient : Except String Unit
  containerInspect : String → Except String ContainerJSON
  imagePull : String → ImagePullOptions → Except String Unit
  pullReadAll : Except String Unit
  containerCreate : ContainerConfig → HostConfig → Except String String
  containerStart : String → Except String Unit
  containerRemove : String → Except String Unit

/-- One recorded engine call, with the arguments that reach the engine. -/
inductive EngineCall where
  | pull (image : String) (opts : ImagePullOptions)
  | readPull
  | create (cfg : ContainerConfig) (host : HostConfig)
  | start (id : String)
  | inspect (id : String)
  | remove (id : String) (force : Bool)
deriving Repr, DecidableEq

/-- Model of `inspectContainer`: return the cached snapshot if present,
otherwise build a client, inspect, and populate the cache only on success.
The updated handle and the list of engine calls issued are returned
alongside the result. -/
def inspectContainer (env : DockerEnv) (c : Container) :
    (Except GoError ContainerJSON × Container) × List EngineCall :=
  match c.raw with
  | some j => ((.ok j, c), [])
  | none =>
    match env.newEnvClient with
    | .error m => ((.error (.external m), c), [])
    | .ok _ =>
      match env.containerInspect c.ID with
      | .error m => ((.error (.external m), c), [.inspect c.ID])
      | .ok j => ((.ok j, { c with raw := some j }), [.inspect c.ID])

/-- Model of `Container.LivenessCheckPorts`. -/
def livenessCheckPorts (env : DockerEnv) (c : Container) :
    (Except GoError (List String) × Container) × List EngineCall :=
  match inspectContainer env c with
  | ((.error e, c'), log) => ((.error e, c'), log)
  | ((.ok j, c'), log) => ((.ok j.Config.ExposedPorts, c'), log)

/-- Model of `Container.GetIPAddress`. -/
def getIPAddress (env : DockerEnv) (c : Container) :
    (Except GoError String × Container) × List EngineCall :=
  match inspectContainer env c with
  | ((.error e, c'), log) => ((.error e, c'), log)
  | ((.ok j, c'), log) => ((.ok j.NetworkSettings.IPAddress, c'), log)

/-- The `for key, val := range inspect.NetworkSettings.Ports` loop of
`GetMappedPort`: first entry whose numeric container port equals `port`
wins; its first host binding is read unconditionally (`val[0]`), which is a
runtime panic when the binding list is empty; no match at all gives the
`fmt.Errorf` not-found error. -/
def findPort : PortMap → Int → GoResult Int
  | [], port => .err (.errorf ("Unable to find mapped port: " ++ toString port))
  | (key, val) :: rest, port =>
    if (portInt key : Int) = port then
      match val with
      | [] => .panic "runtime error: index out of range"
      | b :: _ =>
        match atoi b.HostPort with
        | .ok n => .ok n
        | .error e => .err e
    else findPort rest port

/-- Model of `Container.GetMappedPort`. -/
def getMappedPort (env : DockerEnv) (c : Container) (port : Int) :
    (GoResult Int × Container) × List EngineCall :=
  match inspectContainer env c with
  | ((.error e, c'), log) => ((.err e, c'), log)
  | ((.ok j, c'), log) => ((findPort j.NetworkSettings.Ports port, c'), log)

/-- Model of `Container.Terminate`: build a client and force-remove. -/
def terminate (env : DockerEnv) (c : Container) :
    Option GoError × List EngineCall :=
  match env.newEnvClient with
  | .error m => (some (.external m), [])
  | .ok _ =>
    match env.containerRemove c.ID with
    | .error m => (some (.external m), [.remove c.ID true])
    | .ok _ => (none, [.remove c.ID true])

/-! ### Lifecycle: RunContainer -/

/-- The `container.Config` value `RunContainer` assembles (lines 110-123 of
`docker.go`): flattened environment, exposed ports from the parsed specs,
and a command override only when the request's command string is
non-empty, split on the space character. -/
def buildConfig (containerImage : String) (input : RequestContainer)
    (exposedPorts : List String) : ContainerConfig :=
  { Image := containerImage
    Env := input.Env.map (fun kv => kv.1 ++ "=" ++ kv.2)
    ExposedPorts := exposedPorts
    Cmd := if input.Cmd ≠ "" then some (goSplit input.Cmd ' ') else none }

/-- The `types.ImagePullOptions` value `RunContainer` assembles: registry
credentials are passed through when present. -/
def pullOpts (input : RequestContainer) : ImagePullOptions :=
  { RegistryAuth := if input.RegistryCred ≠ "" then input.RegistryCred else "" }

/-- Model of `RunContainer`: client, port-spec parsing, environment
flattening, config assembly (command override only when `Cmd` is
non-empty), image pull, pull-stream drain, create, start, and the optional
readiness wait. Returns the `(handle, error)` pair exactly as the Go
function does, plus the log of engine calls issued. -/
def runContainer (env : DockerEnv) (containerImage : String)
    (input : RequestContainer) :
    (Option Container × Option GoError) × List EngineCall :=
  match env.newEnvClient with
  | .error m => ((none, some (.external m)), [])
  | .ok _ =>
    match parsePortSpecs input.ExportedPort with
    | .error e => ((none, some e), [])
    | .ok (exposedPorts, portBindings) =>
      let dockerInput : ContainerConfig := buildConfig containerImage input exposedPorts
      let pullOpt : ImagePullOptions := pullOpts input
      match env.imagePull dockerInput.Image pullOpt with
      | .error m => ((none, some (.external m)), [.pull dockerInput.Image pullOpt])
      | .ok _ =>
        match env.pullReadAll with
        | .error m =>
          ((none, some (.external m)), [.pull dockerInput.Image pullOpt, .readPull])
        | .ok _ =>
          let hostConfig : HostConfig := { PortBindings := portBindings }
          match env.containerCreate dockerInput hostConfig with
          | .error m =>
            ((none, some (.external m)),
              [.pull dockerInput.Image pullOpt, .readPull,
                .create dockerInput hostConfig])
          | .ok id =>
            let log := [.pull dockerInput.Image pullOpt, .readPull,
              .create dockerInput hostConfig, EngineCall.start id]
            match env.containerStart id with
            | .error m => ((none, some (.external m)), log)
            | .ok _ =>
              let containerInstance : Container := { ID := id, raw := none }
              match input.WaitingFor with
              | none => ((some containerInstance, none), log)
              | some strat =>
                match strat containerInstance with
                | some e => ((some containerInstance, some e), log)
                | none => ((some containerInstance, none), log)

/-! ### Interleaving model of concurrent `inspectContainer` calls

`inspectContainer` touches the shared cache slot `c.raw` at three separate
points: the initial nil check, the engine round trip, and the write-back.
Two goroutines calling accessors on the same handle are modelled as two
threads, each executing those points as separate atomic steps over the
shared slot; a schedule is the list of which thread moves next. The engine
inspection counter counts underlying inspection round trips. -/

/-- Position of one thread inside the body of `inspectContainer`. -/
inductive Phase where
  | atNilCheck
  | sawNil
  | fetched
  | done
deriving Repr, DecidableEq

/-- One thread running `inspectContainer`: its position, its local result,
and whether it has already performed the engine round trip. -/
structure ThreadSt where
  phase : Phase
  res : Option (Except GoError ContainerJSON) := none
  didInspect : Bool := false
deriving Repr, DecidableEq

/-- Shared state: the handle's cache slot, the engine-inspection counter,
and the two threads. -/
structure ConcState where
  raw : Option ContainerJSON
  calls : Nat
  t1 : ThreadSt
  t2 : ThreadSt
deriving Repr, DecidableEq

/-- One atomic step of a thread: the nil check (`if c.raw != nil`), the
client construction plus engine inspection, or the cache write-back
(`c.raw = &inspect`). Returns the new thread state, the new shared slot,
and how many engine inspections the step performed. -/
def threadStep (env : DockerEnv) (id : String) (ts : ThreadSt)
    (raw : Option ContainerJSON) : ThreadSt × Option ContainerJSON × Nat :=
  match ts.phase with
  | .atNilCheck =>
    match raw with
    | some j => ({ ts with phase := .done, res := some (.ok j) }, raw, 0)
    | none => ({ ts with phase := .sawNil }, raw, 0)
  | .sawNil =>
    match env.newEnvClient with
    | .error m =>
      ({ ts with phase := .done, res := some (.error (.external m)) }, raw, 0)
    | .ok _ =>
      match env.containerInspect id with
      | .error m =>
        ({ ts with phase := .done, res := some (.error (.external m)), didInspect := true },
          raw, 1)
      | .ok j =>
        ({ ts with phase := .fetched, res := some (.ok j), didInspect := true }, raw, 1)
  | .fetched =>
    match ts.res with
    | some (.ok j) => ({ ts with phase := .done }, some j, 0)
    | _ => ({ ts with phase := .done }, raw, 0)
  | .done => (ts, raw, 0)

/-- Run the scheduled thread for one step (`true` = thread 1). -/
def concStep (env : DockerEnv) (id : String) (s : ConcState) :
    Bool → ConcState
  | true =>
    match threadStep env id s.t1 s.raw with
    | (ts, raw, k) => { s with t1 := ts, raw := raw, calls := s.calls + k }
  | false =>
    match threadStep env id s.t2 s.raw with
    | (ts, raw, k) => { s with t2 := ts, raw := raw, calls := s.calls + k }

/-- Run a whole schedule. -/
def concRun (env : DockerEnv) (id : String) : ConcState → List Bool → ConcState
  | s, [] => s
  | s, b :: rest => concRun env id (concStep env id s b) rest

/-- Both calls start before the first inspection completes, on a handle with
an empty cache. -/
def concInit : ConcState :=
  { raw := none, calls := 0, t1 := { phase := .atNilCheck },
    t2 := { phase := .atNilCheck } }

/-- Per-thread invariant under an always-succeeding deterministic engine:
no engine round trip before leaving the nil check, and any computed result
is the engine's snapshot. -/
abbrev TInv (j : ContainerJSON) (ts : ThreadSt) : Prop :=
  ((ts.phase = .atNilCheck ∨ ts.phase = .sawNil) → ts.didInspect = false) ∧
  ((ts.phase = .fetched ∨ ts.phase = .done) → ts.res = some (.ok j))

/-- System invariant: the cache slot holds nothing or the engine snapshot,
and the counter equals the number of threads that performed their round
trip. -/
abbrev ConcInv (j : ContainerJSON) (s : ConcState) : Prop :=
  (s.raw = none ∨ s.raw = some j) ∧
  s.calls = (if s.t1.didInspect then 1 else 0) + (if s.t2.didInspect then 1 else 0) ∧
  TInv j s.t1 ∧ TInv j s.t2

/-! ### A definition taken from the specification's words

The specification describes the request command as "a single string,
tokenized on whitespace". This definition follows those words — nonempty
tokens separated by whitespace characters — and exists only to be compared
against the source's behaviour (`strings.Split(input.Cmd, " ")`). -/

/-- Split a character list at every character satisfying `p`, keeping the
empty pieces. -/
def splitPredAux (p : Char → Bool) : List Char → List Char → List (List Char)
  | [], acc => [acc.reverse]
  | c :: rest, acc =>
    if p c then acc.reverse :: splitPredAux p rest []
    else splitPredAux p rest (c :: acc)

/-- Modelled from the spec: the token sequence obtained by splitting a
command string on whitespace (spec §3: "an optional command line (a single
string, tokenized on whitespace)"). -/
def specWhitespaceTokens (s : String) : List String :=
  ((splitPredAux Char.isWhitespace s.data []).map String.mk).filter
    (fun t => t ≠ "")

/-! ### Concrete fixtures: engine oracles, snapshots and requests -/

/-- Inspection snapshot of a container whose port 80/tcp is published on
host port 8080 — the engine-side state matching a create call with the
bindings parsed from "8080:80". -/
def snapA : ContainerJSON :=
  { Config := { Image := "img", ExposedPorts := ["80/tcp"] }
    NetworkSettings :=
      { IPAddress := "172.17.0.2"
        Ports := [("80/tcp", [{ HostIP := "", HostPort := "8080" }])] } }

/-- The same container as seen after an engine-side change: port 80/tcp now
reported on host port 9999. -/
def snapB : ContainerJSON :=
  { Config := { Image := "img", ExposedPorts := ["80/tcp"] }
    NetworkSettings :=
      { IPAddress := "172.17.0.9"
        Ports := [("80/tcp", [{ HostIP := "", HostPort := "9999" }])] } }

/-- Snapshot in which port 80/tcp appears in the binding map with an empty
binding list (an exposed but unpublished port). -/
def snapNoBinding : ContainerJSON :=
  { Config := { Image := "img", ExposedPorts := ["80/tcp"] }
    NetworkSettings := { IPAddress := "172.17.0.2", Ports := [("80/tcp", [])] } }

/-- A healthy engine: every operation succeeds, create assigns "cid0", and
inspection reports `snapA`. -/
def envOK : DockerEnv :=
  { newEnvClient := .ok ()
    containerInspect := fun _ => .ok snapA
    imagePull := fun _ _ => .ok ()
    pullReadAll := .ok ()
    containerCreate := fun _ _ => .ok "cid0"
    containerStart := fun _ => .ok ()
    containerRemove := fun _ => .ok () }

/-- The engine after its underlying state changed: inspection now reports
`snapB`. -/
def envChanged : DockerEnv := { envOK with containerInspect := fun _ => .ok snapB }

/-- An engine whose inspection reports a matching port with no host
binding. -/
def envNoBinding : DockerEnv :=
  { envOK with containerInspect := fun _ => .ok snapNoBinding }

/-- An engine that cannot be inspected. -/
def envInspectDown : DockerEnv :=
  { envOK with containerInspect := fun _ => .error "No such container: cid0" }

/-- The end-to-end request of the spec's scenario. -/
def reqE2E : RequestContainer :=
  { Env := [("FOO", "bar")], ExportedPort := ["8080:80"] }

/-- The handle `RunContainer` builds for `reqE2E` against `envOK`. -/
def containerE2E : Container := { ID := "cid0" }

/-- A request whose command string contains a tab between the two words. -/
def reqTab : RequestContainer := { Cmd := "echo\thello" }

/-- A readiness strategy that always fails immediately. -/
def failStrat : Container → Option GoError := fun _ => some (.errorf "not ready")

/-- A request supplying the always-failing readiness strategy. -/
def reqWait : RequestContainer :=
  { ExportedPort := ["8080:80"], WaitingFor := some failStrat }

/-- A request with a malformed port-export specification. -/
def reqBadPort : RequestContainer := { ExportedPort := ["http"] }

/-- Snapshot whose port 80/tcp carries two host bindings. -/
def snapMulti : ContainerJSON :=
  { Config := { Image := "img", ExposedPorts := ["80/tcp"] }
    NetworkSettings :=
      { IPAddress := "172.17.0.2"
        Ports := [("80/tcp",
          [{ HostIP := "", HostPort := "8080" },
            { HostIP := "", HostPort := "9090" }])] } }

/-- An engine whose inspection reports the two-binding snapshot. -/
def envMulti : DockerEnv := { envOK with containerInspect := fun _ => .ok snapMulti }

/-! ### Helper lemmas -/

/-- When no entry of the port map matches numerically, the lookup loop of
`GetMappedPort` falls through to the `fmt.Errorf` not-found error. -/
theorem findPort_no_match (ports : PortMap) (p : Int)
    (h : ∀ kv ∈ ports, (portInt kv.1 : Int) ≠ p) :
    findPort ports p = .err (.errorf ("Unable to find mapped port: " ++ toString p)) := by
  induction ports with
  | nil => rfl
  | cons kv rest ih =>
    obtain ⟨key, val⟩ := kv
    have hk : ¬ (portInt key : Int) = p := h (key, val) (List.mem_cons_self _ _)
    simp only [findPort, if_neg hk]
    exact ih (fun kv' hkv => h kv' (List.mem_cons_of_mem _ hkv))

/-- The lookup loop returns the `strconv.Atoi` of the first host binding of
the first numerically matching entry, whatever follows it. -/
theorem findPort_append_first (pre post : PortMap) (key : String)
    (b : PortBinding) (bs : List PortBinding) (p : Int)
    (hpre : ∀ kv ∈ pre, (portInt kv.1 : Int) ≠ p)
    (hkey : (portInt key : Int) = p) :
    findPort (pre ++ (key, b :: bs) :: post) p =
      (match atoi b.HostPort with
        | .ok n => GoResult.ok n
        | .error e => GoResult.err e) := by
  induction pre with
  | nil => simp only [List.nil_append, findPort, if_pos hkey]
  | cons kv rest ih =>
    obtain ⟨k, v⟩ := kv
    have hk : ¬ (portInt k : Int) = p := hpre (k, v) (List.mem_cons_self _ _)
    simp only [List.cons_append, findPort, if_neg hk]
    exact ih (fun kv' hkv => hpre kv' (List.mem_cons_of_mem _ hkv))

/-- When the numerically matching entry is unique, the lookup loop returns
the `strconv.Atoi` of its first host binding. -/
theorem findPort_unique_match (ports : PortMap) (p : Int) (key : String)
    (b : PortBinding) (bs : List PortBinding)
    (hmem : (key, b :: bs) ∈ ports)
    (huniq : ∀ kv ∈ ports, (portInt kv.1 : Int) = p → kv = (key, b :: bs))
    (hkey : (portInt key : Int) = p) (hp : Int)
    (hatoi : atoi b.HostPort = .ok hp) :
    findPort ports p = .ok hp := by
  induction ports with
  | nil => cases hmem
  | cons kv rest ih =>
    obtain ⟨k, v⟩ := kv
    by_cases hk : (portInt k : Int) = p
    · have hkv : (k, v) = (key, b :: bs) := huniq (k, v) (List.mem_cons_self _ _) hk
      rw [Prod.mk.injEq] at hkv
      obtain ⟨hk1, hk2⟩ := hkv
      subst hk1; subst hk2
      simp only [findPort, if_pos hk, hatoi]
    · simp only [findPort, if_neg hk]
      rcases List.mem_cons.mp hmem with hEq | hTail
      · rw [Prod.mk.injEq] at hEq
        exact absurd (hEq.1 ▸ hkey) hk
      · exact ih hTail (fun kv' hkv' => huniq kv' (List.mem_cons_of_mem _ hkv'))

/-- A successful `inspectContainer` leaves the snapshot in the cache slot. -/
theorem inspectContainer_ok_raw (env : DockerEnv) (c c' : Container)
    (j : ContainerJSON) (log : List EngineCall)
    (h : inspectContainer env c = ((.ok j, c'), log)) :
    c'.raw = some j := by
  unfold inspectContainer at h
  cases hr : c.raw with
  | some j0 =>
    rw [hr] at h
    have h2 : c = c' := congrArg (fun x => x.1.2) h
    have h1 : j0 = j := Except.ok.inj (congrArg (fun x => x.1.1) h)
    rw [← h2, hr, h1]
  | none =>
    rw [hr] at h
    cases hc : env.newEnvClient with
    | error m => rw [hc] at h; cases h
    | ok u =>
      rw [hc] at h
      cases hi : env.containerInspect c.ID with
      | error m => rw [hi] at h; cases h
      | ok j1 =>
        rw [hi] at h
        have h2 : ({ c with raw := some j1 } : Container) = c' :=
          congrArg (fun x => x.1.2) h
        have h1 : j1 = j := Except.ok.inj (congrArg (fun x => x.1.1) h)
        rw [← h2]
        subst h1
        rfl

/-- A handle whose cache slot is populated is served from the cache: no
engine call, no state change. -/
theorem inspectContainer_cached (env : DockerEnv) (c : Container)
    (j : ContainerJSON) (h : c.raw = some j) :
    inspectContainer env c = ((.ok j, c), []) := by
  unfold inspectContainer
  rw [h]

/-- One interleaved step preserves the per-thread invariant, keeps the
shared slot at `none` or the engine snapshot, and performs an engine round
trip exactly when it flips the thread's `didInspect` flag. -/
theorem threadStep_inv (env : DockerEnv) (id : String) (j : ContainerJSON)
    (hclient : env.newEnvClient = .ok ())
    (hins : env.containerInspect id = .ok j)
    (ts : ThreadSt) (raw : Option ContainerJSON)
    (hraw : raw = none ∨ raw = some j) (ht : TInv j ts) :
    TInv j (threadStep env id ts raw).1 ∧
    ((threadStep env id ts raw).2.1 = none ∨ (threadStep env id ts raw).2.1 = some j) ∧
    ((ts.didInspect = false ∧ (threadStep env id ts raw).1.didInspect = true ∧
        (threadStep env id ts raw).2.2 = 1) ∨
      ((threadStep env id ts raw).1.didInspect = ts.didInspect ∧
        (threadStep env id ts raw).2.2 = 0)) := by
  obtain ⟨ht1, ht2⟩ := ht
  obtain ⟨ph, res, d⟩ := ts
  cases ph with
  | atNilCheck =>
    have hd : d = false := ht1 (Or.inl rfl)
    subst hd
    rcases hraw with hr | hr <;> subst hr <;> simp [threadStep, TInv]
  | sawNil =>
    have hd : d = false := ht1 (Or.inr rfl)
    subst hd
    rcases hraw with hr | hr <;> subst hr <;>
      simp [threadStep, TInv, hclient, hins]
  | fetched =>
    have hres : res = some (.ok j) := ht2 (Or.inl rfl)
    subst hres
    rcases hraw with hr | hr <;> subst hr <;> simp [threadStep, TInv]
  | done =>
    have hres : res = some (.ok j) := ht2 (Or.inr rfl)
    subst hres
    rcases hraw with hr | hr <;> subst hr <;> simp [threadStep, TInv]

/-- One scheduled step preserves the system invariant. -/
theorem concStep_inv (env : DockerEnv) (id : String) (j : ContainerJSON)
    (hclient : env.newEnvClient = .ok ())
    (hins : env.containerInspect id = .ok j)
    (s : ConcState) (b : Bool) (h : ConcInv j s) :
    ConcInv j (concStep env id s b) := by
  obtain ⟨hraw, hcalls, ht1, ht2⟩ := h
  cases b
  · have hstep := threadStep_inv env id j hclient hins s.t2 s.raw hraw ht2
    rcases hts : threadStep env id s.t2 s.raw with ⟨ts', raw', k⟩
    rw [hts] at hstep
    dsimp only at hstep
    obtain ⟨hI, hR, hK⟩ := hstep
    simp only [concStep, hts]
    refine ⟨hR, ?_, ht1, hI⟩
    dsimp only
    rcases hK with ⟨hd0, hd1, hk⟩ | ⟨hd, hk⟩
    · rw [hcalls, hd1, hd0, hk]; cases s.t1.didInspect <;> simp
    · rw [hcalls, hd, hk]; omega
  · have hstep := threadStep_inv env id j hclient hins s.t1 s.raw hraw ht1
    rcases hts : threadStep env id s.t1 s.raw with ⟨ts', raw', k⟩
    rw [hts] at hstep
    dsimp only at hstep
    obtain ⟨hI, hR, hK⟩ := hstep
    simp only [concStep, hts]
    refine ⟨hR, ?_, hI, ht2⟩
    dsimp only
    rcases hK with ⟨hd0, hd1, hk⟩ | ⟨hd, hk⟩
    · rw [hcalls, hd1, hd0, hk]; cases s.t2.didInspect <;> simp
    · rw [hcalls, hd, hk]; omega

/-- Any schedule preserves the system invariant. -/
theorem concRun_inv (env : DockerEnv) (id : String) (j : ContainerJSON)
    (hclient : env.newEnvClient = .ok ())
    (hins : env.containerInspect id = .ok j)
    (sched : List Bool) (s : ConcState) (h : ConcInv j s) :
    ConcInv j (concRun env id s sched) := by
  induction sched generalizing s with
  | nil => exact h
  | cons b rest ih =>
    exact ih (concStep env id s b) (concStep_inv env id j hclient hins s b h)

/-- The initial state satisfies the system invariant. -/
theorem concInit_inv (j : ContainerJSON) : ConcInv j concInit := by
  refine ⟨Or.inl rfl, rfl, ⟨fun _ => rfl, ?_⟩, ⟨fun _ => rfl, ?_⟩⟩ <;>
    (intro h; rcases h with h | h <;> simp [concInit] at h)

/-! ### Claim theorems -/

/-- C1: For every execution of `RunContainer`, a failure of any step up to
and including container start (client construction, port-spec parsing,
image pull, pull-stream drain, create, start) returns a nil handle together
with the error alone, while a failure of a supplied readiness strategy
after start returns both the non-nil handle built from the created
container's identifier and the non-nil error. -/
theorem runContainer_failure_semantics (env : DockerEnv) (image : String)
    (input : RequestContainer) :
    (∀ m, env.newEnvClient = .error m →
      runContainer env image input = ((none, some (.external m)), [])) ∧
    (∀ e, env.newEnvClient = .ok () →
      parsePortSpecs input.ExportedPort = .error e →
      runContainer env image input = ((none, some e), [])) ∧
    (∀ exp pb m, env.newEnvClient = .ok () →
      parsePortSpecs input.ExportedPort = .ok (exp, pb) →
      env.imagePull image (pullOpts input) = .error m →
      runContainer env image input =
        ((none, some (.external m)), [.pull image (pullOpts input)])) ∧
    (∀ exp pb m, env.newEnvClient = .ok () →
      parsePortSpecs input.ExportedPort = .ok (exp, pb) →
      env.imagePull image (pullOpts input) = .ok () →
      env.pullReadAll = .error m →
      runContainer env image input =
        ((none, some (.external m)), [.pull image (pullOpts input), .readPull])) ∧
    (∀ exp pb m, env.newEnvClient = .ok () →
      parsePortSpecs input.ExportedPort = .ok (exp, pb) →
      env.imagePull image (pullOpts input) = .ok () →
      env.pullReadAll = .ok () →
      env.containerCreate (buildConfig image input exp) { PortBindings := pb } = .error m →
      runContainer env image input =
        ((none, some (.external m)),
          [.pull image (pullOpts input), .readPull,
            .create (buildConfig image input exp) { PortBindings := pb }])) ∧
    (∀ exp pb id m, env.newEnvClient = .ok () →
      parsePortSpecs input.ExportedPort = .ok (exp, pb) →
      env.imagePull image (pullOpts input) = .ok () →
      env.pullReadAll = .ok () →
      env.containerCreate (buildConfig image input exp) { PortBindings := pb } = .ok id →
      env.containerStart id = .error m →
      runContainer env image input =
        ((none, some (.external m)),
          [.pull image (pullOpts input), .readPull,
            .create (buildConfig image input exp) { PortBindings := pb },
            .start id])) ∧
    (∀ exp pb id strat e, env.newEnvClient = .ok () →
      parsePortSpecs input.ExportedPort = .ok (exp, pb) →
      env.imagePull image (pullOpts input) = .ok () →
      env.pullReadAll = .ok () →
      env.containerCreate (buildConfig image input exp) { PortBindings := pb } = .ok id →
      env.containerStart id = .ok () →
      input.WaitingFor = some strat →
      strat { ID := id, raw := none } = some e →
      runContainer env image input =
        ((some { ID := id, raw := none }, some e),
          [.pull image (pullOpts input), .readPull,
            .create (buildConfig image input exp) { PortBindings := pb },
            .start id])) := by
  refine ⟨?_, ?_, ?_, ?_, ?_, ?_, ?_⟩
  · intro m h
    simp [runContainer, h]
  · intro e h1 h2
    simp [runContainer, h1, h2]
  · intro exp pb m h1 h2 h3
    have hIm : (buildConfig image input exp).Image = image := rfl
    simp [runContainer, hIm, h1, h2, h3]
  · intro exp pb m h1 h2 h3 h4
    have hIm : (buildConfig image input exp).Image = image := rfl
    simp [runContainer, hIm, h1, h2, h3, h4]
  · intro exp pb m h1 h2 h3 h4 h5
    have hIm : (buildConfig image input exp).Image = image := rfl
    simp [runContainer, hIm, h1, h2, h3, h4, h5]
  · intro exp pb id m h1 h2 h3 h4 h5 h6
    have hIm : (buildConfig image input exp).Image = image := rfl
    simp [runContainer, hIm, h1, h2, h3, h4, h5, h6]
  · intro exp pb id strat e h1 h2 h3 h4 h5 h6 h7 h8
    have hIm : (buildConfig image input exp).Image = image := rfl
    simp [runContainer, hIm, h1, h2, h3, h4, h5, h6, h7, h8]

/-- C1 witness: against a healthy engine, the always-failing readiness
strategy makes `RunContainer` return the handle and the error. -/
theorem runContainer_failure_semantics_witness :
    runContainer envOK "img" reqWait =
      ((some { ID := "cid0", raw := none }, some (.errorf "not ready")),
        [.pull "img" { RegistryAuth := "" }, .readPull,
          .create (buildConfig "img" reqWait ["80/tcp"])
            { PortBindings := [("80/tcp", [{ HostIP := "", HostPort := "8080" }])] },
          .start "cid0"]) :=
  (runContainer_failure_semantics envOK "img" reqWait).2.2.2.2.2.2
    ["80/tcp"] [("80/tcp", [{ HostIP := "", HostPort := "8080" }])]
    "cid0" failStrat (.errorf "not ready")
    rfl (by decide) rfl rfl rfl rfl rfl rfl

/-- C2: When the inspected port-binding map has a (unique) entry whose
container-side port numerically equals the requested port — the protocol
suffix playing no role in the comparison — `GetMappedPort` returns that
entry's first host-side port as an integer; in particular the end-to-end
scenario `ExportedPort = ["8080:80"]` followed by `GetMappedPort 80`
returns 8080. -/
theorem getMappedPort_numeric_match :
    (∀ (env : DockerEnv) (c c' : Container) (p hp : Int) (j : ContainerJSON)
        (key : String) (b : PortBinding) (bs : List PortBinding)
        (log : List EngineCall),
      inspectContainer env c = ((.ok j, c'), log) →
      (key, b :: bs) ∈ j.NetworkSettings.Ports →
      (∀ kv ∈ j.NetworkSettings.Ports, (portInt kv.1 : Int) = p →
        kv = (key, b :: bs)) →
      (portInt key : Int) = p →
      atoi b.HostPort = .ok hp →
      (getMappedPort env c p).1.1 = .ok hp) ∧
    (runContainer envOK "img" reqE2E).1 = (some containerE2E, none) ∧
    (getMappedPort envOK containerE2E 80).1.1 = .ok 8080 := by
  refine ⟨?_, by decide, by decide⟩
  intro env c c' p hp j key b bs log hins hmem huniq hkey hatoi
  unfold getMappedPort
  rw [hins]
  exact findPort_unique_match _ p key b bs hmem huniq hkey hp hatoi

/-- C2 witness: the universal part applied to the end-to-end snapshot. -/
theorem getMappedPort_numeric_match_witness :
    (getMappedPort envOK { ID := "cid9" } 80).1.1 = .ok 8080 :=
  getMappedPort_numeric_match.1 envOK { ID := "cid9" }
    { ID := "cid9", raw := some snapA } 80 8080 snapA
    "80/tcp" { HostIP := "", HostPort := "8080" } [] [.inspect "cid9"]
    (by decide) (by decide) (by decide) (by decide) (by decide)

/-- C3: When inspection succeeds and no entry of the port-binding map
numerically matches the requested port, `GetMappedPort` returns the
`fmt.Errorf` not-found error — a kind distinct from any client/engine
error — and does so again on the repeated (cache-served) call. -/
theorem getMappedPort_not_found (env : DockerEnv) (c c' : Container)
    (p : Int) (j : ContainerJSON) (log : List EngineCall)
    (hins : inspectContainer env c = ((.ok j, c'), log))
    (hnone : ∀ kv ∈ j.NetworkSettings.Ports, (portInt kv.1 : Int) ≠ p) :
    getMappedPort env c p =
      ((.err (.errorf ("Unable to find mapped port: " ++ toString p)), c'), log) ∧
    getMappedPort env c' p =
      ((.err (.errorf ("Unable to find mapped port: " ++ toString p)), c'), []) ∧
    (∀ m, GoError.errorf ("Unable to find mapped port: " ++ toString p) ≠
      GoError.external m) := by
  have hraw : c'.raw = some j := inspectContainer_ok_raw env c c' j log hins
  refine ⟨?_, ?_, fun m h => by cases h⟩
  · unfold getMappedPort
    rw [hins]
    dsimp only
    rw [findPort_no_match _ p hnone]
  · unfold getMappedPort
    rw [inspectContainer_cached env c' j hraw]
    dsimp only
    rw [findPort_no_match _ p hnone]

/-- C3 witness: port 9999 is absent from the inspected bindings. -/
theorem getMappedPort_not_found_witness :
    getMappedPort envOK { ID := "cid0" } 9999 =
      ((.err (.errorf ("Unable to find mapped port: " ++ toString (9999 : Int))),
        { ID := "cid0", raw := some snapA }), [.inspect "cid0"]) ∧
    getMappedPort envOK { ID := "cid0", raw := some snapA } 9999 =
      ((.err (.errorf ("Unable to find mapped port: " ++ toString (9999 : Int))),
        { ID := "cid0", raw := some snapA }), []) ∧
    (∀ m, GoError.errorf ("Unable to find mapped port: " ++ toString (9999 : Int)) ≠
      GoError.external m) :=
  getMappedPort_not_found envOK { ID := "cid0" } { ID := "cid0", raw := some snapA }
    9999 snapA [.inspect "cid0"] (by decide) (by decide)

/-- C4: A successful `GetMappedPort` populates the handle's cache, and the
repeated call with the same present container port returns the same host
port with no further engine call — even against an engine whose underlying
state has since changed. -/
theorem getMappedPort_cached_idempotent (env1 env2 : DockerEnv)
    (c c' : Container) (p n : Int) (log : List EngineCall)
    (h : getMappedPort env1 c p = ((.ok n, c'), log)) :
    getMappedPort env2 c' p = ((.ok n, c'), []) := by
  unfold getMappedPort at h ⊢
  rcases hins : inspectContainer env1 c with ⟨⟨r, c''⟩, log'⟩
  rw [hins] at h
  cases r with
  | error e => cases h
  | ok j =>
    dsimp only at h
    have hfind : findPort j.NetworkSettings.Ports p = .ok n :=
      congrArg (fun x => x.1.1) h
    have hc : c'' = c' := congrArg (fun x => x.1.2) h
    rw [← hc]
    have hraw : c''.raw = some j := inspectContainer_ok_raw env1 c c'' j log' hins
    rw [inspectContainer_cached env2 c'' j hraw]
    dsimp only
    rw [hfind]

/-- C4 witness: the first call runs against `envOK`; the second runs
against `envChanged`, whose inspection now reports host port 9999, and
still returns 8080 from the cache. -/
theorem getMappedPort_cached_idempotent_witness :
    getMappedPort envChanged { ID := "cid0", raw := some snapA } 80 =
      ((.ok 8080, { ID := "cid0", raw := some snapA }), []) :=
  getMappedPort_cached_idempotent envOK envChanged { ID := "cid0" }
    { ID := "cid0", raw := some snapA } 80 8080 [.inspect "cid0"] (by decide)

/-- C5 counterexample: for the command string "echo\thello" (a tab between
the words) the configuration passed to creation carries the single token
["echo\thello"], whereas the token sequence obtained by splitting the
string on whitespace is ["echo", "hello"] — so the command passed to
creation is not the whitespace tokenization of the command string. -/
theorem runContainer_cmd_whitespace_cex :
    (runContainer envOK "img" reqTab).2 =
      [.pull "img" { RegistryAuth := "" }, .readPull,
        .create { Image := "img", Env := [], ExposedPorts := [], Cmd := some ["echo\thello"] }
          { PortBindings := [] },
        .start "cid0"] ∧
    specWhitespaceTokens reqTab.Cmd = ["echo", "hello"] ∧
    (some ["echo\thello"] : Option (List String)) ≠
      some (specWhitespaceTokens reqTab.Cmd) := by
  refine ⟨by decide, by decide, by decide⟩

/-- C5 (amended): whenever `RunContainer` issues a create call, the
configuration it passes carries no command override when the request's
command string is empty, and otherwise carries exactly the token sequence
obtained by splitting the string on the space character (empty tokens
preserved, other whitespace not split). -/
theorem runContainer_cmd_space_split (env : DockerEnv) (image : String)
    (input : RequestContainer) (cfg : ContainerConfig) (host : HostConfig)
    (h : EngineCall.create cfg host ∈ (runContainer env image input).2) :
    cfg.Cmd = (if input.Cmd ≠ "" then some (goSplit input.Cmd ' ') else none) := by
  simp only [runContainer] at h
  cases h1 : env.newEnvClient with
  | error m => rw [h1] at h; simp at h
  | ok u =>
    rw [h1] at h
    dsimp only at h
    cases h2 : parsePortSpecs input.ExportedPort with
    | error e => rw [h2] at h; simp at h
    | ok epb =>
      obtain ⟨exp, pb⟩ := epb
      rw [h2] at h
      dsimp only at h
      cases h3 : env.imagePull (buildConfig image input exp).Image (pullOpts input) with
      | error m => rw [h3] at h; simp at h
      | ok u3 =>
        rw [h3] at h
        dsimp only at h
        cases h4 : env.pullReadAll with
        | error m => rw [h4] at h; simp at h
        | ok u4 =>
          rw [h4] at h
          dsimp only at h
          cases h5 : env.containerCreate (buildConfig image input exp)
              { PortBindings := pb } with
          | error m =>
            rw [h5] at h
            simp at h
            obtain ⟨hcfg, -⟩ := h
            subst hcfg
            simp [buildConfig]
          | ok id =>
            rw [h5] at h
            dsimp only at h
            cases h6 : env.containerStart id with
            | error m =>
              rw [h6] at h
              simp at h
              obtain ⟨hcfg, -⟩ := h
              subst hcfg
              simp [buildConfig]
            | ok u6 =>
              rw [h6] at h
              dsimp only at h
              cases h7 : input.WaitingFor with
              | none =>
                rw [h7] at h
                simp at h
                obtain ⟨hcfg, -⟩ := h
                subst hcfg
                simp [buildConfig]
              | some strat =>
                rw [h7] at h
                dsimp only at h
                cases h8 : strat { ID := id, raw := none } with
                | none =>
                  rw [h8] at h
                  simp at h
                  obtain ⟨hcfg, -⟩ := h
                  subst hcfg
                  simp [buildConfig]
                | some e =>
                  rw [h8] at h
                  simp at h
                  obtain ⟨hcfg, -⟩ := h
                  subst hcfg
                  simp [buildConfig]

/-- C5 witness: a request with no command yields a create call whose
configuration has no command override. -/
theorem runContainer_cmd_space_split_witness :
    (buildConfig "img" reqE2E ["80/tcp"]).Cmd =
      (if reqE2E.Cmd ≠ "" then some (goSplit reqE2E.Cmd ' ') else none) :=
  runContainer_cmd_space_split envOK "img" reqE2E
    (buildConfig "img" reqE2E ["80/tcp"])
    { PortBindings := [("80/tcp", [{ HostIP := "", HostPort := "8080" }])] }
    (by decide)

/-- C6: With a constructible client, a request whose port-export
specification fails to parse makes `RunContainer` return the parse error
with no handle and an empty engine-call log: no image pull, no container
create, no container start is issued. -/
theorem runContainer_parse_error_aborts (env : DockerEnv) (image : String)
    (input : RequestContainer) (e : GoError)
    (hclient : env.newEnvClient = .ok ())
    (hparse : parsePortSpecs input.ExportedPort = .error e) :
    runContainer env image input = ((none, some e), []) := by
  simp [runContainer, hclient, hparse]

/-- C6 witness: the malformed spec "http" aborts `RunContainer` before any
engine call. -/
theorem runContainer_parse_error_aborts_witness :
    runContainer envOK "img" reqBadPort =
      ((none, some (.errorf "Invalid containerPort: http")), []) :=
  runContainer_parse_error_aborts envOK "img" reqBadPort
    (.errorf "Invalid containerPort: http") rfl (by decide)

/-- C7 counterexample: under the schedule where both calls pass the nil
check before either inspection completes, both calls finish but two engine
inspection calls are performed — not exactly one. -/
theorem concurrent_inspect_single_flight_cex :
    (concRun envOK "cid0" concInit [true, false, true, true, false, false]).calls = 2 ∧
    (concRun envOK "cid0" concInit [true, false, true, true, false, false]).t1.phase = .done ∧
    (concRun envOK "cid0" concInit [true, false, true, true, false, false]).t2.phase = .done ∧
    (concRun envOK "cid0" concInit [true, false, true, true, false, false]).calls ≠ 1 := by
  refine ⟨by decide, by decide, by decide, by decide⟩

/-- C7 (amended): two concurrent accessor calls issued before the first
inspection completes may each perform their own engine inspection — the
cache has no single-flight discipline — but never more than one round trip
per caller; and when the engine deterministically returns the same
snapshot, every completed caller observes that same snapshot. -/
theorem concurrent_inspect_bounded (env : DockerEnv) (id : String)
    (j : ContainerJSON) (sched : List Bool)
    (hclient : env.newEnvClient = .ok ())
    (hins : env.containerInspect id = .ok j) :
    (concRun env id concInit sched).calls ≤ 2 ∧
    ((concRun env id concInit sched).t1.phase = .done →
      (concRun env id concInit sched).t1.res = some (.ok j)) ∧
    ((concRun env id concInit sched).t2.phase = .done →
      (concRun env id concInit sched).t2.res = some (.ok j)) := by
  have hinv := concRun_inv env id j hclient hins sched concInit (concInit_inv j)
  obtain ⟨hraw, hcalls, ht1, ht2⟩ := hinv
  refine ⟨?_, fun h => ht1.2 (Or.inr h), fun h => ht2.2 (Or.inr h)⟩
  rw [hcalls]
  cases (concRun env id concInit sched).t1.didInspect <;>
    cases (concRun env id concInit sched).t2.didInspect <;> simp

/-- C7 amended witness: the bound instantiated at the racing schedule. -/
theorem concurrent_inspect_bounded_witness :
    (concRun envOK "cid0" concInit [true, false, true, true, false, false]).calls ≤ 2 ∧
    ((concRun envOK "cid0" concInit [true, false, true, true, false, false]).t1.phase = .done →
      (concRun envOK "cid0" concInit [true, false, true, true, false, false]).t1.res =
        some (.ok snapA)) ∧
    ((concRun envOK "cid0" concInit [true, false, true, true, false, false]).t2.phase = .done →
      (concRun envOK "cid0" concInit [true, false, true, true, false, false]).t2.res =
        some (.ok snapA)) :=
  concurrent_inspect_bounded envOK "cid0" snapA [true, false, true, true, false, false]
    rfl rfl

/-- C8: On a snapshot whose binding map contains the requested port with an
empty host-binding list, `GetMappedPort`'s unchecked `val[0]` access is out
of bounds: a runtime panic rather than an error return. -/
theorem getMappedPort_empty_binding_panics :
    (getMappedPort envNoBinding { ID := "cid0" } 80).1.1 =
      .panic "runtime error: index out of range" := by decide

/-- C9: A failed inspection attempt leaves the cache slot unpopulated and
the handle unchanged, so a later accessor call against a recovered engine
performs a fresh engine inspection and succeeds. -/
theorem inspectContainer_cache_only_on_success (env1 env2 : DockerEnv)
    (c c' : Container) (e : GoError) (log : List EngineCall) (j : ContainerJSON)
    (herr : inspectContainer env1 c = ((.error e, c'), log))
    (hclient : env2.newEnvClient = .ok ())
    (hins : env2.containerInspect c.ID = .ok j) :
    c' = c ∧ c'.raw = none ∧
    inspectContainer env2 c' = ((.ok j, { c with raw := some j }), [.inspect c.ID]) := by
  unfold inspectContainer at herr
  cases hr : c.raw with
  | some j0 => rw [hr] at herr; cases herr
  | none =>
    rw [hr] at herr
    have hc : c' = c := by
      cases hc1 : env1.newEnvClient with
      | error m =>
        rw [hc1] at herr
        exact (congrArg (fun x => x.1.2) herr).symm
      | ok u =>
        rw [hc1] at herr
        cases hi : env1.containerInspect c.ID with
        | error m =>
          rw [hi] at herr
          exact (congrArg (fun x => x.1.2) herr).symm
        | ok j1 => rw [hi] at herr; cases herr
    subst hc
    refine ⟨rfl, hr, ?_⟩
    unfold inspectContainer
    rw [hr, hclient, hins]

/-- C9 witness: inspection fails against `envInspectDown`, the cache stays
empty, and the retry against `envOK` hits the engine and succeeds. -/
theorem inspectContainer_cache_only_on_success_witness :
    ({ ID := "cid0" } : Container) = { ID := "cid0" } ∧
    ({ ID := "cid0" } : Container).raw = none ∧
    inspectContainer envOK { ID := "cid0" } =
      ((.ok snapA, { ID := "cid0", raw := some snapA }), [.inspect "cid0"]) :=
  inspectContainer_cache_only_on_success envInspectDown envOK
    { ID := "cid0" } { ID := "cid0" }
    (.external "No such container: cid0") [.inspect "cid0"] snapA
    (by decide) rfl rfl

/-- C10: When the first numerically matching entry carries more than one
host binding, `GetMappedPort` returns the host port of the first binding in
the list, whatever the remaining bindings are. -/
theorem getMappedPort_first_binding (env : DockerEnv) (c c' : Container)
    (p hp : Int) (j : ContainerJSON) (key : String) (b : PortBinding)
    (bs : List PortBinding) (pre post : PortMap) (log : List EngineCall)
    (hins : inspectContainer env c = ((.ok j, c'), log))
    (hports : j.NetworkSettings.Ports = pre ++ (key, b :: bs) :: post)
    (hpre : ∀ kv ∈ pre, (portInt kv.1 : Int) ≠ p)
    (hkey : (portInt key : Int) = p)
    (_hmulti : bs ≠ [])
    (hatoi : atoi b.HostPort = .ok hp) :
    (getMappedPort env c p).1.1 = .ok hp := by
  unfold getMappedPort
  rw [hins]
  dsimp only
  rw [hports, findPort_append_first pre post key b bs p hpre hkey, hatoi]

/-- C10 witness: with bindings ["8080", "9090"] on port 80/tcp, the first
one wins. -/
theorem getMappedPort_first_binding_witness :
    (getMappedPort envMulti { ID := "cid0" } 80).1.1 = .ok 8080 :=
  getMappedPort_first_binding envMulti { ID := "cid0" }
    { ID := "cid0", raw := some snapMulti } 80 8080 snapMulti
    "80/tcp" { HostIP := "", HostPort := "8080" }
    [{ HostIP := "", HostPort := "9090" }] [] [] [.inspect "cid0"]
    (by decide) (by decide) (by decide) (by decide) (by decide) (by decide)
